import Mathlib

/-!
Shallow embedding of the `atm` CLI core (fgouteroux/atm): the `silence add`
command implemented in `cli/silence_add.go`, together with the matcher
classification helpers `TypeMatcher` / `TypeMatchers`.

External collaborators of the repository (the alertmanager matcher parser
`compat.Matcher`, `strconv.Quote`, `time.Parse`, `model.ParseDuration`, file
I/O, and the HTTP silence-submission client) are modelled as components of an
abstract environment `Env`; the control flow of `add` itself is translated
statement by statement from the Go source.

Time instants are modelled as integers (nanoseconds since epoch, as in Go's
`time.Time`); durations as natural numbers (`model.ParseDuration` only
produces non-negative durations).
-/

namespace Atm

/-- The `labels.MatchType` enumeration of the Prometheus `pkg/labels` package:
the type of a parsed matcher. -/
inductive MatchType where
  | matchEqual
  | matchNotEqual
  | matchRegexp
  | matchNotRegexp
deriving DecidableEq, Repr

/-- A `labels.Matcher`: the structured result of parsing one matcher
expression. -/
structure LabelsMatcher where
  type : MatchType
  name : String
  value : String
deriving DecidableEq, Repr

/-- A `models.Matcher` as placed in the outbound silence payload: the four
fields set by `TypeMatcher` (the pointer indirections of the Go struct carry
no meaning in the model). -/
structure ModelsMatcher where
  name : String
  value : String
  isEqual : Bool
  isRegex : Bool
deriving DecidableEq, Repr

/-- Function `TypeMatcher` from the repository: classifies a `labels.Matcher` into the
`(isEqual, isRegex)` pair of the wire payload. Translated from:
`isEqual := (matcher.Type == labels.MatchEqual) || (matcher.Type == labels.MatchRegexp)`;
`isRegex := (matcher.Type == labels.MatchRegexp) || (matcher.Type == labels.MatchNotRegexp)`. -/
def TypeMatcher (matcher : LabelsMatcher) : ModelsMatcher :=
  { name := matcher.name
    value := matcher.value
    isEqual := (matcher.type == MatchType.matchEqual) || (matcher.type == MatchType.matchRegexp)
    isRegex := (matcher.type == MatchType.matchRegexp) || (matcher.type == MatchType.matchNotRegexp) }

/-- Function `TypeMatchers` from the repository: maps `TypeMatcher` over a list. -/
def TypeMatchers (matchers : List LabelsMatcher) : List ModelsMatcher :=
  matchers.map TypeMatcher

/-- Modelled from the spec: the textual-operator classification performed by
the external matcher parser (`compat.Matcher` of the alertmanager library,
which is not part of this repository). Per the spec the supported operators
are, in disambiguation order, `=~`, `!~`, `!=`, `=`; each maps to the
corresponding `labels.MatchType`; anything else fails. -/
def operatorType : String → Option MatchType
  | "=~" => some MatchType.matchRegexp
  | "!~" => some MatchType.matchNotRegexp
  | "!=" => some MatchType.matchNotEqual
  | "=" => some MatchType.matchEqual
  | _ => none

/-- The distinct error outcomes of `add`, one constructor per distinct
`return err` / `fmt.Errorf` / `kingpin.Fatalf` exit of the Go source
(`kingpin.Fatalf` terminates the process; it is modelled as an error
outcome). -/
inductive AddError where
  /-- Error raised when `compat.Matcher` failed inside the parse loop on the given string. -/
  | matcherParse (s : String)
  /-- Message "no matchers specified". -/
  | noMatchers
  /-- Error raised when `time.Parse` failed on the `start` flag. -/
  | startParse (s : String)
  /-- Error raised when `time.Parse` failed on the `end` flag. -/
  | endParse (s : String)
  /-- Error raised when `model.ParseDuration` failed on the `duration` flag. -/
  | durationParse (s : String)
  /-- Message "silence duration must be greater than 0". -/
  | durationZero
  /-- Message "silence duration '%s' couldn't be greater than '%s'". -/
  | durationExceedsMax (d md : String)
  /-- Message "silence cannot start after it ends". -/
  | startAfterEnd
  /-- Message "comment required by config". -/
  | commentRequired
  /-- Fatal exit `kingpin.Fatalf("tenant and tenant.file are mutually exclusive")`. -/
  | conflictingTenant
  /-- Message "Unable to read tenant file '%s'". -/
  | tenantFileRead (f : String)
  /-- Message "Unable to add silence [for '%s' tenant]": a failed submission in
  no-tenant or single-tenant mode. -/
  | submission (tenant : Option String) (msg : String)
deriving DecidableEq, Repr

/-- The flag fields of `silenceAddCmd`. An unset string flag holds `""`
(kingpin's zero default), so "flag absent" and "flag set to the empty string"
are one and the same field value, exactly as in the Go struct. -/
structure SilenceAddCmd where
  author : String
  requireComment : Bool
  duration : String
  maxDuration : String
  start : String
  «end» : String
  comment : String
  matchers : List String
  tenant : String
  tenantFile : String
  tenantHTTPHeader : String
deriving DecidableEq, Repr

/-- The external services `add` calls into, as pure oracles:
* `compatMatcher s` — `compat.Matcher(s, "cli")`: `none` models a parse error;
* `quote` — `strconv.Quote`;
* `parseTime s` — `time.Parse(time.RFC3339, s)` as an instant, `none` on error;
* `now` — `time.Now().UTC()`;
* `parseDuration s` — `model.ParseDuration(s)`; `none` models an error, in
  which case the library also returns the `Duration` zero value, which the
  model recovers with `Option.getD 0` at the call site that discards the error;
* `readTenantFile f` — the file I/O of `readTenantFromFile`: the lines of the
  file, or `none` when `os.Open` fails;
* `post t` — `PostSilences` through a client whose tenant header is `t`
  (`none` = no tenant header attached): the returned silence ID, or the error
  message. -/
structure Env where
  compatMatcher : String → Option LabelsMatcher
  quote : String → String
  parseTime : String → Option Int
  now : Int
  parseDuration : String → Option Nat
  readTenantFile : String → Option (List String)
  post : Option String → Except String String

/-- Lines 105-113 of `silence_add.go`: if the list is non-empty and its first
element fails to parse, overwrite it with
`fmt.Sprintf("alertname=%s", strconv.Quote(c.matchers[0]))`. -/
def rewriteFirstMatcher (env : Env) : List String → List String
  | [] => []
  | m0 :: rest =>
    match env.compatMatcher m0 with
    | some _ => m0 :: rest
    | none => ("alertname=" ++ env.quote m0) :: rest

/-- Lines 115-122: the parse loop over the (possibly rewritten) matcher
strings; the first failure aborts with that element's parse error. -/
def parseMatcherList (env : Env) : List String → Except AddError (List LabelsMatcher)
  | [] => Except.ok []
  | s :: rest =>
    match env.compatMatcher s with
    | none => Except.error (AddError.matcherParse s)
    | some m =>
      match parseMatcherList env rest with
      | Except.error e => Except.error e
      | Except.ok l => Except.ok (m :: l)

/-- Lines 105-125: rewrite-then-parse, then the `len(matchers) < 1` check
("no matchers specified"). -/
def parseMatchers (env : Env) (ms : List String) : Except AddError (List LabelsMatcher) :=
  match parseMatcherList env (rewriteFirstMatcher env ms) with
  | Except.error e => Except.error e
  | Except.ok l => if l.length < 1 then Except.error AddError.noMatchers else Except.ok l

/-- Lines 127-136: `startsAt` is the parsed `start` flag when non-empty, else
`time.Now().UTC()`. -/
def resolveStartsAt (env : Env) (c : SilenceAddCmd) : Except AddError Int :=
  if c.start ≠ "" then
    match env.parseTime c.start with
    | none => Except.error (AddError.startParse c.start)
    | some t => Except.ok t
  else Except.ok env.now

/-- Lines 138-158: `endsAt` is the parsed `end` flag when non-empty; otherwise
the duration path: parse `duration` (error on failure, error on zero), set
`endsAt = startsAt + d`, then `md, _ := model.ParseDuration(c.maxDuration)`
(the discarded error leaves `md` at the zero value `0` when the flag does not
parse) and fail when `d > md`. -/
def resolveEndsAt (env : Env) (c : SilenceAddCmd) (startsAt : Int) : Except AddError Int :=
  if c.«end» ≠ "" then
    match env.parseTime c.«end» with
    | none => Except.error (AddError.endParse c.«end»)
    | some t => Except.ok t
  else
    match env.parseDuration c.duration with
    | none => Except.error (AddError.durationParse c.duration)
    | some d =>
      if d = 0 then Except.error AddError.durationZero
      else
        let endsAt := startsAt + (d : Int)
        let md := (env.parseDuration c.maxDuration).getD 0
        if d > md then Except.error (AddError.durationExceedsMax c.duration c.maxDuration)
        else Except.ok endsAt

/-- Lines 127-162: resolve both instants, then
`if startsAt.After(endsAt) { return errors.New("silence cannot start after it ends") }`. -/
def resolveWindow (env : Env) (c : SilenceAddCmd) : Except AddError (Int × Int) :=
  match resolveStartsAt env c with
  | Except.error e => Except.error e
  | Except.ok startsAt =>
    match resolveEndsAt env c startsAt with
    | Except.error e => Except.error e
    | Except.ok endsAt =>
      if startsAt > endsAt then Except.error AddError.startAfterEnd
      else Except.ok (startsAt, endsAt)

/-- The `models.PostableSilence` payload built at lines 168-178. -/
structure PostableSilence where
  matchers : List ModelsMatcher
  startsAt : Int
  endsAt : Int
  createdBy : String
  comment : String
deriving DecidableEq, Repr

instance {ε α : Type} [DecidableEq ε] [DecidableEq α] : DecidableEq (Except ε α) := fun a b =>
  match a, b with
  | Except.error x, Except.error y =>
    if h : x = y then isTrue (by rw [h]) else isFalse (by simp [h])
  | Except.error _, Except.ok _ => isFalse (by simp)
  | Except.ok _, Except.error _ => isFalse (by simp)
  | Except.ok x, Except.ok y =>
    if h : x = y then isTrue (by rw [h]) else isFalse (by simp [h])

/-- One submission attempt: the tenant header attached to the client
(`none` in no-tenant mode) and the outcome of `PostSilences`. -/
structure Attempt where
  tenant : Option String
  result : Except String String
deriving DecidableEq, Repr

/-- Lines 181-225: the tenant-mode dispatch. The mutual-exclusion check comes
first (`kingpin.Fatalf`, before any client is built); then single-tenant mode
(one attempt, a failure is the command's failure), file-tenant mode (every
tenant of the file attempted in order, failures only reported, the loop never
aborts), or no-tenant mode (one unadorned attempt). -/
def dispatch (env : Env) (c : SilenceAddCmd) : List Attempt × Except AddError Unit :=
  if c.tenant ≠ "" ∧ c.tenantFile ≠ "" then
    ([], Except.error AddError.conflictingTenant)
  else if c.tenant ≠ "" then
    match env.post (some c.tenant) with
    | Except.error msg =>
      ([⟨some c.tenant, Except.error msg⟩],
       Except.error (AddError.submission (some c.tenant) msg))
    | Except.ok sid => ([⟨some c.tenant, Except.ok sid⟩], Except.ok ())
  else if c.tenantFile ≠ "" then
    match env.readTenantFile c.tenantFile with
    | none => ([], Except.error (AddError.tenantFileRead c.tenantFile))
    | some tenants =>
      (tenants.map (fun t => ⟨some t, env.post (some t)⟩), Except.ok ())
  else
    match env.post none with
    | Except.error msg => ([⟨none, Except.error msg⟩], Except.error (AddError.submission none msg))
    | Except.ok sid => ([⟨none, Except.ok sid⟩], Except.ok ())

/-- The observable outcome of one `add` invocation: the submission attempts in
order, the payload that was built (when control reached line 170), and the
returned error, if any. -/
structure AddOutcome where
  attempts : List Attempt
  request : Option PostableSilence
  result : Except AddError Unit
deriving DecidableEq, Repr

/-- Method `(c *silenceAddCmd) add`, lines 102-226, as a pure function of the command
flags and the environment: parse matchers (with the first-element rewrite),
resolve the window, check the window ordering and the comment requirement,
build the payload, then dispatch per tenant mode. -/
def add (env : Env) (c : SilenceAddCmd) : AddOutcome :=
  match parseMatchers env c.matchers with
  | Except.error e => ⟨[], none, Except.error e⟩
  | Except.ok matchers =>
    match resolveWindow env c with
    | Except.error e => ⟨[], none, Except.error e⟩
    | Except.ok (startsAt, endsAt) =>
      if c.requireComment && c.comment == "" then
        ⟨[], none, Except.error AddError.commentRequired⟩
      else
        let ps : PostableSilence :=
          { matchers := TypeMatchers matchers
            startsAt := startsAt
            endsAt := endsAt
            createdBy := c.author
            comment := c.comment }
        let d := dispatch env c
        ⟨d.1, some ps, d.2⟩

/-! ### A concrete environment and commands, for witnesses and counterexamples -/

/-- A concrete matcher-parser oracle recognizing a few fixed expressions. -/
def testMatcher : String → Option LabelsMatcher
  | "alertname=foo" => some ⟨MatchType.matchEqual, "alertname", "foo"⟩
  | "node=bar" => some ⟨MatchType.matchEqual, "node", "bar"⟩
  | "alertname=\"foo\"" => some ⟨MatchType.matchEqual, "alertname", "foo"⟩
  | _ => none

/-- A concrete `time.Parse` oracle recognizing two fixed RFC3339 instants. -/
def testParseTime : String → Option Int
  | "2024-01-01T00:00:00Z" => some 1704067200
  | "2024-01-01T01:00:00Z" => some 1704070800
  | _ => none

/-- A concrete `model.ParseDuration` oracle (values in seconds). -/
def testParseDuration : String → Option Nat
  | "1h" => some 3600
  | "10m" => some 600
  | "12h" => some 43200
  | "13h" => some 46800
  | "0s" => some 0
  | _ => none

/-- A concrete environment: tenant file `tenants.txt` holds `["a", "b"]`, and
submission fails for tenant `a` and succeeds for every other client. -/
def testEnv : Env :=
  { compatMatcher := testMatcher
    quote := fun s => "\"" ++ s ++ "\""
    parseTime := testParseTime
    now := 1704067200
    parseDuration := testParseDuration
    readTenantFile := fun f => if f = "tenants.txt" then some ["a", "b"] else none
    post := fun t => if t = some "a" then Except.error "boom" else Except.ok "sid-1" }

/-- A baseline command with the default flag values of the CLI and one
well-formed matcher. -/
def baseCmd : SilenceAddCmd :=
  { author := "alice"
    requireComment := true
    duration := "1h"
    maxDuration := "12h"
    start := ""
    «end» := ""
    comment := "x"
    matchers := ["alertname=foo"]
    tenant := ""
    tenantFile := ""
    tenantHTTPHeader := "X-Scope-OrgID" }

/-- Variant of `baseCmd` with the tenant file set: file-tenant mode. -/
def fileCmd : SilenceAddCmd := { baseCmd with tenantFile := "tenants.txt" }

/-- Variant of `baseCmd` with both a single tenant and a tenant file: the conflicting
configuration. -/
def conflictCmd : SilenceAddCmd := { baseCmd with tenant := "x", tenantFile := "tenants.txt" }

/-- Variant of `conflictCmd` with a matcher the test parser rejects (also after the
`alertname=` rewrite). -/
def conflictBadMatcherCmd : SilenceAddCmd := { conflictCmd with matchers := ["zzz"] }

/-- Variant of `baseCmd` with an explicit end instant. -/
def endCmd : SilenceAddCmd := { baseCmd with «end» := "2024-01-01T01:00:00Z" }

/-- Variant of `baseCmd` with an unparsable max-duration flag. -/
def badMaxCmd : SilenceAddCmd := { baseCmd with maxDuration := "bogus" }

/-! ### Structural lemmas about the stages of `add` -/

theorem add_matchers_error (env : Env) (c : SilenceAddCmd) (e : AddError)
    (h : parseMatchers env c.matchers = Except.error e) :
    add env c = ⟨[], none, Except.error e⟩ := by
  unfold add
  rw [h]

theorem add_window_error (env : Env) (c : SilenceAddCmd) (ms : List LabelsMatcher) (e : AddError)
    (hm : parseMatchers env c.matchers = Except.ok ms)
    (hw : resolveWindow env c = Except.error e) :
    add env c = ⟨[], none, Except.error e⟩ := by
  unfold add
  rw [hm, hw]

theorem add_comment_required (env : Env) (c : SilenceAddCmd) (ms : List LabelsMatcher)
    (s t : Int) (hm : parseMatchers env c.matchers = Except.ok ms)
    (hw : resolveWindow env c = Except.ok (s, t))
    (hc : (c.requireComment && c.comment == "") = true) :
    add env c = ⟨[], none, Except.error AddError.commentRequired⟩ := by
  unfold add
  rw [hm, hw]
  simp [hc]

theorem add_dispatches (env : Env) (c : SilenceAddCmd) (ms : List LabelsMatcher)
    (s t : Int) (hm : parseMatchers env c.matchers = Except.ok ms)
    (hw : resolveWindow env c = Except.ok (s, t))
    (hc : (c.requireComment && c.comment == "") = false) :
    add env c = ⟨(dispatch env c).1,
      some ⟨TypeMatchers ms, s, t, c.author, c.comment⟩, (dispatch env c).2⟩ := by
  unfold add
  rw [hm, hw]
  simp [hc]

theorem add_cases (env : Env) (c : SilenceAddCmd) :
    (∃ e, parseMatchers env c.matchers = Except.error e ∧
       add env c = ⟨[], none, Except.error e⟩) ∨
    (∃ ms e, parseMatchers env c.matchers = Except.ok ms ∧
       resolveWindow env c = Except.error e ∧ add env c = ⟨[], none, Except.error e⟩) ∨
    (∃ ms s t, parseMatchers env c.matchers = Except.ok ms ∧
       resolveWindow env c = Except.ok (s, t) ∧
       (c.requireComment && c.comment == "") = true ∧
       add env c = ⟨[], none, Except.error AddError.commentRequired⟩) ∨
    (∃ ms s t, parseMatchers env c.matchers = Except.ok ms ∧
       resolveWindow env c = Except.ok (s, t) ∧
       (c.requireComment && c.comment == "") = false ∧
       add env c = ⟨(dispatch env c).1,
         some ⟨TypeMatchers ms, s, t, c.author, c.comment⟩, (dispatch env c).2⟩) := by
  cases hm : parseMatchers env c.matchers with
  | error e => exact Or.inl ⟨e, rfl, add_matchers_error env c e hm⟩
  | ok ms =>
    cases hw : resolveWindow env c with
    | error e => exact Or.inr (Or.inl ⟨ms, e, rfl, rfl, add_window_error env c ms e hm hw⟩)
    | ok w =>
      obtain ⟨s, t⟩ := w
      cases hc : (c.requireComment && c.comment == "") with
      | true =>
        exact Or.inr (Or.inr (Or.inl
          ⟨ms, s, t, rfl, rfl, rfl, add_comment_required env c ms s t hm hw hc⟩))
      | false =>
        exact Or.inr (Or.inr (Or.inr
          ⟨ms, s, t, rfl, rfl, rfl, add_dispatches env c ms s t hm hw hc⟩))

/-! ### Error-shape lemmas -/

theorem parseMatcherList_error_shape (env : Env) (l : List String) (e : AddError)
    (h : parseMatcherList env l = Except.error e) : ∃ s, e = AddError.matcherParse s := by
  induction l with
  | nil => simp [parseMatcherList] at h
  | cons s rest ih =>
    unfold parseMatcherList at h
    split at h
    · simp only [Except.error.injEq] at h
      exact ⟨s, h.symm⟩
    · split at h
      · rename_i heq
        simp only [Except.error.injEq] at h
        exact ih (h ▸ heq)
      · simp at h

theorem parseMatchers_error_shape (env : Env) (ms : List String) (e : AddError)
    (h : parseMatchers env ms = Except.error e) :
    (∃ s, e = AddError.matcherParse s) ∨ e = AddError.noMatchers := by
  unfold parseMatchers at h
  split at h
  · rename_i e' heq
    simp only [Except.error.injEq] at h
    exact Or.inl (h ▸ parseMatcherList_error_shape env _ e' heq)
  · split at h
    · simp only [Except.error.injEq] at h
      exact Or.inr h.symm
    · simp at h

theorem resolveStartsAt_error_shape (env : Env) (c : SilenceAddCmd) (e : AddError)
    (h : resolveStartsAt env c = Except.error e) : e = AddError.startParse c.start := by
  unfold resolveStartsAt at h
  by_cases hs : c.start ≠ ""
  · rw [if_pos hs] at h
    cases hp : env.parseTime c.start <;> rw [hp] at h <;> simp_all
  · rw [if_neg hs] at h
    simp at h

theorem resolveEndsAt_end_path (env : Env) (c : SilenceAddCmd) (s : Int)
    (hend : c.«end» ≠ "") :
    resolveEndsAt env c s =
      match env.parseTime c.«end» with
      | none => Except.error (AddError.endParse c.«end»)
      | some t => Except.ok t := by
  unfold resolveEndsAt
  rw [if_pos hend]

theorem resolveEndsAt_duration_path (env : Env) (c : SilenceAddCmd) (s : Int)
    (hend : c.«end» = "") :
    resolveEndsAt env c s =
      match env.parseDuration c.duration with
      | none => Except.error (AddError.durationParse c.duration)
      | some d =>
        if d = 0 then Except.error AddError.durationZero
        else if d > (env.parseDuration c.maxDuration).getD 0 then
          Except.error (AddError.durationExceedsMax c.duration c.maxDuration)
        else Except.ok (s + (d : Int)) := by
  unfold resolveEndsAt
  rw [hend]
  simp

theorem resolveEndsAt_end_error_shape (env : Env) (c : SilenceAddCmd) (s : Int) (e : AddError)
    (hend : c.«end» ≠ "") (h : resolveEndsAt env c s = Except.error e) :
    e = AddError.endParse c.«end» := by
  rw [resolveEndsAt_end_path env c s hend] at h
  split at h
  · simp only [Except.error.injEq] at h
    exact h.symm
  · simp at h

theorem resolveEndsAt_error_shape (env : Env) (c : SilenceAddCmd) (s : Int) (e : AddError)
    (h : resolveEndsAt env c s = Except.error e) :
    e = AddError.endParse c.«end» ∨ e = AddError.durationParse c.duration ∨
    e = AddError.durationZero ∨ e = AddError.durationExceedsMax c.duration c.maxDuration := by
  unfold resolveEndsAt at h
  split at h
  · split at h
    · simp only [Except.error.injEq] at h
      exact Or.inl h.symm
    · simp at h
  · split at h
    · simp only [Except.error.injEq] at h
      exact Or.inr (Or.inl h.symm)
    · split at h
      · simp only [Except.error.injEq] at h
        exact Or.inr (Or.inr (Or.inl h.symm))
      · dsimp only at h
        split at h
        · simp only [Except.error.injEq] at h
          exact Or.inr (Or.inr (Or.inr h.symm))
        · simp at h

theorem resolveWindow_ok_inv (env : Env) (c : SilenceAddCmd) (s t : Int)
    (h : resolveWindow env c = Except.ok (s, t)) :
    resolveStartsAt env c = Except.ok s ∧ resolveEndsAt env c s = Except.ok t ∧ s ≤ t := by
  unfold resolveWindow at h
  split at h
  · simp at h
  · rename_i s' hs
    split at h
    · simp at h
    · rename_i t' he
      split at h
      · simp at h
      · rename_i hgt
        simp only [Except.ok.injEq, Prod.mk.injEq] at h
        obtain ⟨h1, h2⟩ := h
        subst h1
        subst h2
        exact ⟨hs, he, le_of_not_lt hgt⟩

theorem resolveWindow_rejects (env : Env) (c : SilenceAddCmd) (s t : Int)
    (hs : resolveStartsAt env c = Except.ok s) (he : resolveEndsAt env c s = Except.ok t)
    (hgt : s > t) : resolveWindow env c = Except.error AddError.startAfterEnd := by
  unfold resolveWindow
  rw [hs]
  dsimp only
  rw [he]
  dsimp only
  rw [if_pos hgt]

theorem resolveWindow_error_shape (env : Env) (c : SilenceAddCmd) (e : AddError)
    (h : resolveWindow env c = Except.error e) :
    e = AddError.startParse c.start ∨ e = AddError.endParse c.«end» ∨
    e = AddError.durationParse c.duration ∨ e = AddError.durationZero ∨
    e = AddError.durationExceedsMax c.duration c.maxDuration ∨ e = AddError.startAfterEnd := by
  unfold resolveWindow at h
  split at h
  · rename_i e' hs
    simp only [Except.error.injEq] at h
    exact Or.inl (h ▸ resolveStartsAt_error_shape env c e' hs)
  · rename_i s hs
    split at h
    · rename_i e' he
      simp only [Except.error.injEq] at h
      rcases h ▸ resolveEndsAt_error_shape env c s e' he with h' | h' | h' | h'
      · exact Or.inr (Or.inl h')
      · exact Or.inr (Or.inr (Or.inl h'))
      · exact Or.inr (Or.inr (Or.inr (Or.inl h')))
      · exact Or.inr (Or.inr (Or.inr (Or.inr (Or.inl h'))))
    · rename_i t he
      split at h
      · simp only [Except.error.injEq] at h
        exact Or.inr (Or.inr (Or.inr (Or.inr (Or.inr h.symm))))
      · simp at h

theorem resolveWindow_end_error_shape (env : Env) (c : SilenceAddCmd) (e : AddError)
    (hend : c.«end» ≠ "") (h : resolveWindow env c = Except.error e) :
    e = AddError.startParse c.start ∨ e = AddError.endParse c.«end» ∨
    e = AddError.startAfterEnd := by
  unfold resolveWindow at h
  split at h
  · rename_i e' hs
    simp only [Except.error.injEq] at h
    exact Or.inl (h ▸ resolveStartsAt_error_shape env c e' hs)
  · rename_i s hs
    split at h
    · rename_i e' he
      simp only [Except.error.injEq] at h
      exact Or.inr (Or.inl (h ▸ resolveEndsAt_end_error_shape env c s e' hend he))
    · rename_i t he
      split at h
      · simp only [Except.error.injEq] at h
        exact Or.inr (Or.inr h.symm)
      · simp at h

/-! ### Dispatch lemmas -/

theorem dispatch_conflict (env : Env) (c : SilenceAddCmd)
    (ht : c.tenant ≠ "") (hf : c.tenantFile ≠ "") :
    dispatch env c = ([], Except.error AddError.conflictingTenant) := by
  unfold dispatch
  rw [if_pos ⟨ht, hf⟩]

theorem dispatch_file (env : Env) (c : SilenceAddCmd) (tenants : List String)
    (ht : c.tenant = "") (hf : c.tenantFile ≠ "")
    (hr : env.readTenantFile c.tenantFile = some tenants) :
    dispatch env c = (tenants.map (fun t => ⟨some t, env.post (some t)⟩), Except.ok ()) := by
  unfold dispatch
  rw [if_neg (by simp [ht]), if_neg (by simp [ht]), if_pos hf, hr]

theorem dispatch_no_tenant (env : Env) (c : SilenceAddCmd)
    (ht : c.tenant = "") (hf : c.tenantFile = "") :
    (dispatch env c).1 = [⟨none, env.post none⟩] := by
  unfold dispatch
  rw [if_neg (by simp [ht]), if_neg (by simp [ht]), if_neg (by simp [hf])]
  cases env.post none <;> rfl

theorem dispatch_error_shape (env : Env) (c : SilenceAddCmd) (e : AddError)
    (h : (dispatch env c).2 = Except.error e) :
    e = AddError.conflictingTenant ∨ e = AddError.tenantFileRead c.tenantFile ∨
    ∃ t m, e = AddError.submission t m := by
  unfold dispatch at h
  split at h
  · simp only [Except.error.injEq] at h
    exact Or.inl h.symm
  · split at h
    · split at h
      · rename_i msg hp
        simp only [Except.error.injEq] at h
        exact Or.inr (Or.inr ⟨some c.tenant, msg, h.symm⟩)
      · simp at h
    · split at h
      · split at h
        · simp only [Except.error.injEq] at h
          exact Or.inr (Or.inl h.symm)
        · simp at h
      · split at h
        · rename_i msg hp
          simp only [Except.error.injEq] at h
          exact Or.inr (Or.inr ⟨none, msg, h.symm⟩)
        · simp at h

/-! ### Claim theorems -/

/-- C5: for every successfully parsed matcher, the four textual operators map
totally and unambiguously to the `(isEqual, isRegex)` pair computed by
`TypeMatcher`: `isEqual` is true exactly for `=` and `=~`, `isRegex` is true
exactly for `=~` and `!~`, and the pair determines the match type. -/
theorem matcher_operator_classification (op : String) (t : MatchType) (n v : String)
    (h : operatorType op = some t) :
    ((TypeMatcher ⟨t, n, v⟩).isEqual = true ↔ (op = "=" ∨ op = "=~")) ∧
    ((TypeMatcher ⟨t, n, v⟩).isRegex = true ↔ (op = "=~" ∨ op = "!~")) ∧
    (∀ t1 t2 : MatchType,
      (TypeMatcher ⟨t1, n, v⟩).isEqual = (TypeMatcher ⟨t2, n, v⟩).isEqual →
      (TypeMatcher ⟨t1, n, v⟩).isRegex = (TypeMatcher ⟨t2, n, v⟩).isRegex → t1 = t2) := by
  refine ⟨?_, ?_, ?_⟩
  · unfold operatorType at h
    split at h <;> simp_all [TypeMatcher] <;> (subst h; decide)
  · unfold operatorType at h
    split at h <;> simp_all [TypeMatcher] <;> (subst h; decide)
  · intro t1 t2 h1 h2
    cases t1 <;> cases t2 <;> simp_all [TypeMatcher]

/-- C5 witness: the theorem applied to the `=~` operator. -/
theorem matcher_operator_classification_witness :
    ((TypeMatcher ⟨MatchType.matchRegexp, "a", "b"⟩).isEqual = true ↔
      (("=~" : String) = "=" ∨ ("=~" : String) = "=~")) ∧
    ((TypeMatcher ⟨MatchType.matchRegexp, "a", "b"⟩).isRegex = true ↔
      (("=~" : String) = "=~" ∨ ("=~" : String) = "!~")) ∧
    (∀ t1 t2 : MatchType,
      (TypeMatcher ⟨t1, "a", "b"⟩).isEqual = (TypeMatcher ⟨t2, "a", "b"⟩).isEqual →
      (TypeMatcher ⟨t1, "a", "b"⟩).isRegex = (TypeMatcher ⟨t2, "a", "b"⟩).isRegex → t1 = t2) :=
  matcher_operator_classification "=~" MatchType.matchRegexp "a" "b" (by decide)

/-- C1 counterexample: with duration `1h` (parsable and non-zero) and the
unparsable maxDuration `bogus`, the duration check does not pass: `add` fails
with the max-duration error, refuting "parse failure is tolerated and treated
as no limit". -/
theorem maxDuration_unparsable_cex :
    testEnv.parseDuration "bogus" = none ∧
    testEnv.parseDuration "1h" = some 3600 ∧
    (add testEnv badMaxCmd).result
      = Except.error (AddError.durationExceedsMax "1h" "bogus") := by decide

/-- C1 (amended): in the duration path with a parsable non-zero duration `d`,
an unparsable `maxDuration` leaves `md` at the zero value returned alongside
the discarded error, so the operation always fails with
`DurationExceedsMaxError`; when `maxDuration` parses, the operation fails with
`DurationExceedsMaxError` exactly when `d > md`, and otherwise yields
`startsAt + d`. -/
theorem maxDuration_check (env : Env) (c : SilenceAddCmd) (s : Int) (d : Nat)
    (hend : c.«end» = "") (hd : env.parseDuration c.duration = some d) (hd0 : d ≠ 0) :
    (env.parseDuration c.maxDuration = none →
      resolveEndsAt env c s
        = Except.error (AddError.durationExceedsMax c.duration c.maxDuration)) ∧
    (∀ md, env.parseDuration c.maxDuration = some md →
      resolveEndsAt env c s
        = if d > md then
            Except.error (AddError.durationExceedsMax c.duration c.maxDuration)
          else Except.ok (s + (d : Int))) := by
  rw [resolveEndsAt_duration_path env c s hend]
  constructor
  · intro hmd
    rw [hd]
    dsimp only
    rw [if_neg hd0, hmd]
    dsimp only [Option.getD]
    rw [if_pos (Nat.pos_of_ne_zero hd0)]
  · intro md hmd
    rw [hd]
    dsimp only
    rw [if_neg hd0, hmd]
    rfl

/-- C1 witness: the amended theorem applied to the default flags, where
`maxDuration = "12h"` parses to 43200 and the check passes for `1h`. -/
theorem maxDuration_check_witness :
    (testEnv.parseDuration baseCmd.maxDuration = none →
      resolveEndsAt testEnv baseCmd 0
        = Except.error (AddError.durationExceedsMax baseCmd.duration baseCmd.maxDuration)) ∧
    (∀ md, testEnv.parseDuration baseCmd.maxDuration = some md →
      resolveEndsAt testEnv baseCmd 0
        = if 3600 > md then
            Except.error (AddError.durationExceedsMax baseCmd.duration baseCmd.maxDuration)
          else Except.ok ((0 : Int) + ((3600 : Nat) : Int))) :=
  maxDuration_check testEnv baseCmd 0 3600 (by decide) (by decide) (by decide)

/-- C2 counterexample: when the retry parse of the rewritten first element
also fails, the operation fails with that element's parse error, not with the
no-matchers error. -/
theorem rewrite_retry_failure_cex :
    parseMatchers testEnv ["zzz"] = Except.error (AddError.matcherParse "alertname=\"zzz\"") ∧
    parseMatchers testEnv ["zzz"] ≠ Except.error AddError.noMatchers := by decide

/-- C2 (amended): a non-empty matcher list whose first element fails to parse
is retried with that element rewritten to `alertname=<quoted original>`; an
empty list fails with the no-matchers error; if the retry parse of the
rewritten element still fails, the operation fails with that element's matcher
syntax error (not the no-matchers error); if it succeeds, parsing proceeds
with its result prepended. -/
theorem first_matcher_rewrite (env : Env) (m0 : String) (rest : List String)
    (h1 : env.compatMatcher m0 = none) :
    parseMatchers env ([] : List String) = Except.error AddError.noMatchers ∧
    rewriteFirstMatcher env (m0 :: rest) = ("alertname=" ++ env.quote m0) :: rest ∧
    (env.compatMatcher ("alertname=" ++ env.quote m0) = none →
      parseMatchers env (m0 :: rest)
        = Except.error (AddError.matcherParse ("alertname=" ++ env.quote m0))) ∧
    (∀ m, env.compatMatcher ("alertname=" ++ env.quote m0) = some m →
      parseMatchers env (m0 :: rest)
        = match parseMatcherList env rest with
          | Except.error e => Except.error e
          | Except.ok l => Except.ok (m :: l)) := by
  have hrw : rewriteFirstMatcher env (m0 :: rest) = ("alertname=" ++ env.quote m0) :: rest := by
    unfold rewriteFirstMatcher
    dsimp only
    rw [h1]
  refine ⟨rfl, hrw, ?_, ?_⟩
  · intro h2
    unfold parseMatchers
    rw [hrw]
    unfold parseMatcherList
    rw [h2]
  · intro m hm
    have hstep : ∀ (x : String) (l : List String), parseMatcherList env (x :: l)
        = match env.compatMatcher x with
          | none => Except.error (AddError.matcherParse x)
          | some m' =>
            match parseMatcherList env l with
            | Except.error e => Except.error e
            | Except.ok l' => Except.ok (m' :: l') := fun x l => rfl
    unfold parseMatchers
    rw [hrw, hstep, hm]
    dsimp only
    cases hr : parseMatcherList env rest with
    | error e => simp
    | ok l => simp

/-- C2 witness: the amended theorem applied where the rewritten `foo` parses,
so `["foo"]` is equivalent to parsing the rewritten element alone. -/
theorem first_matcher_rewrite_witness :
    parseMatchers testEnv ([] : List String) = Except.error AddError.noMatchers ∧
    rewriteFirstMatcher testEnv ("foo" :: []) = ("alertname=" ++ testEnv.quote "foo") :: [] ∧
    (testEnv.compatMatcher ("alertname=" ++ testEnv.quote "foo") = none →
      parseMatchers testEnv ("foo" :: [])
        = Except.error (AddError.matcherParse ("alertname=" ++ testEnv.quote "foo"))) ∧
    (∀ m, testEnv.compatMatcher ("alertname=" ++ testEnv.quote "foo") = some m →
      parseMatchers testEnv ("foo" :: [])
        = match parseMatcherList testEnv [] with
          | Except.error e => Except.error e
          | Except.ok l => Except.ok (m :: l)) :=
  first_matcher_rewrite testEnv "foo" [] (by decide)

/-- C3: in file-tenant mode, for every tenant list read from the file, the
dispatcher attempts a submission for every tenant in file order, recording
each outcome independently: a per-tenant failure never prevents the remaining
attempts, and the command still returns success. -/
theorem file_tenant_attempts_all (env : Env) (c : SilenceAddCmd) (tenants : List String)
    (ht : c.tenant = "") (hf : c.tenantFile ≠ "")
    (hread : env.readTenantFile c.tenantFile = some tenants)
    (ms : List LabelsMatcher) (hm : parseMatchers env c.matchers = Except.ok ms)
    (s t : Int) (hw : resolveWindow env c = Except.ok (s, t))
    (hc : (c.requireComment && c.comment == "") = false) :
    (add env c).attempts = tenants.map (fun tn => ⟨some tn, env.post (some tn)⟩) ∧
    (add env c).result = Except.ok () := by
  rw [add_dispatches env c ms s t hm hw hc, dispatch_file env c tenants ht hf hread]
  exact ⟨rfl, rfl⟩

/-- C3 witness: tenant file `["a", "b"]` where submission for `a` fails and
`b` succeeds — both attempted, both outcomes recorded, command succeeds. -/
theorem file_tenant_attempts_all_witness :
    (add testEnv fileCmd).attempts
      = (["a", "b"]).map (fun tn => ⟨some tn, testEnv.post (some tn)⟩) ∧
    (add testEnv fileCmd).result = Except.ok () :=
  file_tenant_attempts_all testEnv fileCmd ["a", "b"]
    (by decide) (by decide) (by decide)
    [⟨MatchType.matchEqual, "alertname", "foo"⟩] (by decide)
    1704067200 1704070800 (by decide) (by decide)

/-- C4 counterexample: with both tenant configurations supplied but an
unparsable matcher, the command fails with the matcher error rather than
`ConflictingTenantConfigError` (still with no submission attempted). -/
theorem conflicting_tenant_cex :
    (add testEnv conflictBadMatcherCmd).result
      = Except.error (AddError.matcherParse "alertname=\"zzz\"") ∧
    (add testEnv conflictBadMatcherCmd).result ≠ Except.error AddError.conflictingTenant ∧
    (add testEnv conflictBadMatcherCmd).attempts = [] := by decide

/-- C4 (amended): whenever both a single tenant and a tenant file are
supplied, no submission is ever attempted and the command fails; it fails
with `ConflictingTenantConfigError` exactly when matcher parsing, window
resolution and the comment check all succeed, and otherwise with that
earlier validation error itself (the matcher or window error as returned, or
the comment-required error). -/
theorem conflicting_tenant_no_submission (env : Env) (c : SilenceAddCmd)
    (ht : c.tenant ≠ "") (hf : c.tenantFile ≠ "") :
    (add env c).attempts = [] ∧
    (∃ e, (add env c).result = Except.error e) ∧
    ((add env c).result = Except.error AddError.conflictingTenant ↔
      ((∃ ms, parseMatchers env c.matchers = Except.ok ms) ∧
       (∃ w, resolveWindow env c = Except.ok w) ∧
       (c.requireComment && c.comment == "") = false)) ∧
    (∀ e, parseMatchers env c.matchers = Except.error e →
      (add env c).result = Except.error e) ∧
    (∀ ms e, parseMatchers env c.matchers = Except.ok ms →
      resolveWindow env c = Except.error e →
      (add env c).result = Except.error e) ∧
    (∀ ms s t, parseMatchers env c.matchers = Except.ok ms →
      resolveWindow env c = Except.ok (s, t) →
      (c.requireComment && c.comment == "") = true →
      (add env c).result = Except.error AddError.commentRequired) := by
  refine ⟨?_, ?_, ⟨?_, ?_⟩, ?_, ?_, ?_⟩
  · rcases add_cases env c with ⟨e, _, hA⟩ | ⟨ms, e, _, _, hA⟩ | ⟨ms, s, t, _, _, _, hA⟩ |
      ⟨ms, s, t, _, _, _, hA⟩
    · rw [hA]
    · rw [hA]
    · rw [hA]
    · rw [hA, dispatch_conflict env c ht hf]
  · rcases add_cases env c with ⟨e, _, hA⟩ | ⟨ms, e, _, _, hA⟩ | ⟨ms, s, t, _, _, _, hA⟩ |
      ⟨ms, s, t, _, _, _, hA⟩
    · exact ⟨e, by rw [hA]⟩
    · exact ⟨e, by rw [hA]⟩
    · exact ⟨AddError.commentRequired, by rw [hA]⟩
    · exact ⟨AddError.conflictingTenant, by rw [hA, dispatch_conflict env c ht hf]⟩
  · intro hres
    rcases add_cases env c with ⟨e, hpm, hA⟩ | ⟨ms, e, hm, hw, hA⟩ |
      ⟨ms, s, t, hm, hw, hc, hA⟩ | ⟨ms, s, t, hm, hw, hc, hA⟩
    · rw [hA] at hres
      simp only [Except.error.injEq] at hres
      subst hres
      rcases parseMatchers_error_shape env c.matchers _ hpm with ⟨s', h'⟩ | h' <;> simp at h'
    · rw [hA] at hres
      simp only [Except.error.injEq] at hres
      subst hres
      rcases resolveWindow_error_shape env c _ hw with h' | h' | h' | h' | h' | h' <;>
        simp at h'
    · rw [hA] at hres
      simp at hres
    · exact ⟨⟨ms, hm⟩, ⟨(s, t), hw⟩, hc⟩
  · rintro ⟨⟨ms, hm⟩, ⟨⟨s, t⟩, hw⟩, hc⟩
    rw [add_dispatches env c ms s t hm hw hc, dispatch_conflict env c ht hf]
  · intro e hpm
    rw [add_matchers_error env c e hpm]
  · intro ms e hm hw
    rw [add_window_error env c ms e hm hw]
  · intro ms s t hm hw hc
    rw [add_comment_required env c ms s t hm hw hc]

/-- C4 witness: both tenant flags set on an otherwise valid invocation — no
attempt is made and the conflict error is reported. -/
theorem conflicting_tenant_no_submission_witness :
    (add testEnv conflictCmd).attempts = [] ∧
    (∃ e, (add testEnv conflictCmd).result = Except.error e) ∧
    ((add testEnv conflictCmd).result = Except.error AddError.conflictingTenant ↔
      ((∃ ms, parseMatchers testEnv conflictCmd.matchers = Except.ok ms) ∧
       (∃ w, resolveWindow testEnv conflictCmd = Except.ok w) ∧
       (conflictCmd.requireComment && conflictCmd.comment == "") = false)) ∧
    (∀ e, parseMatchers testEnv conflictCmd.matchers = Except.error e →
      (add testEnv conflictCmd).result = Except.error e) ∧
    (∀ ms e, parseMatchers testEnv conflictCmd.matchers = Except.ok ms →
      resolveWindow testEnv conflictCmd = Except.error e →
      (add testEnv conflictCmd).result = Except.error e) ∧
    (∀ ms s t, parseMatchers testEnv conflictCmd.matchers = Except.ok ms →
      resolveWindow testEnv conflictCmd = Except.ok (s, t) →
      (conflictCmd.requireComment && conflictCmd.comment == "") = true →
      (add testEnv conflictCmd).result = Except.error AddError.commentRequired) :=
  conflicting_tenant_no_submission testEnv conflictCmd (by decide) (by decide)

/-- C6: when an explicit end is provided, `endsAt` is the parsed end (both in
window resolution and in the built payload), and the result never fails with
either invalid-duration error (unparsable or zero) or with the max-duration
error, regardless of the `duration` and `maxDuration` strings. -/
theorem explicit_end_skips_duration (env : Env) (c : SilenceAddCmd) (hend : c.«end» ≠ "") :
    (∀ t, env.parseTime c.«end» = some t → ∀ s, resolveEndsAt env c s = Except.ok t) ∧
    (∀ ps, (add env c).request = some ps → env.parseTime c.«end» = some ps.endsAt) ∧
    (∀ d md, (add env c).result ≠ Except.error (AddError.durationParse d) ∧
      (add env c).result ≠ Except.error AddError.durationZero ∧
      (add env c).result ≠ Except.error (AddError.durationExceedsMax d md)) := by
  have hend_ok : ∀ s t, resolveEndsAt env c s = Except.ok t → env.parseTime c.«end» = some t := by
    intro s t hok
    rw [resolveEndsAt_end_path env c s hend] at hok
    split at hok
    · simp at hok
    · rename_i t' hpt
      simp only [Except.ok.injEq] at hok
      exact hok ▸ hpt
  have hshape : ∀ e, (add env c).result = Except.error e →
      (∃ s, e = AddError.matcherParse s) ∨ e = AddError.noMatchers ∨
      e = AddError.startParse c.start ∨ e = AddError.endParse c.«end» ∨
      e = AddError.startAfterEnd ∨ e = AddError.commentRequired ∨
      e = AddError.conflictingTenant ∨ e = AddError.tenantFileRead c.tenantFile ∨
      ∃ tn m, e = AddError.submission tn m := by
    intro e hres
    rcases add_cases env c with ⟨e', hpm, hA⟩ | ⟨ms, e', hm, hw, hA⟩ |
      ⟨ms, s, t, hm, hw, hc, hA⟩ | ⟨ms, s, t, hm, hw, hc, hA⟩
    · rw [hA] at hres
      simp only [Except.error.injEq] at hres
      subst hres
      rcases parseMatchers_error_shape env c.matchers e' hpm with ⟨s', h'⟩ | h'
      · exact Or.inl ⟨s', h'⟩
      · exact Or.inr (Or.inl h')
    · rw [hA] at hres
      simp only [Except.error.injEq] at hres
      subst hres
      rcases resolveWindow_end_error_shape env c e' hend hw with h' | h' | h'
      · exact Or.inr (Or.inr (Or.inl h'))
      · exact Or.inr (Or.inr (Or.inr (Or.inl h')))
      · exact Or.inr (Or.inr (Or.inr (Or.inr (Or.inl h'))))
    · rw [hA] at hres
      simp only [Except.error.injEq] at hres
      subst hres
      exact Or.inr (Or.inr (Or.inr (Or.inr (Or.inr (Or.inl rfl)))))
    · rw [hA] at hres
      rcases dispatch_error_shape env c e hres with h' | h' | ⟨tn, m', h'⟩
      · exact Or.inr (Or.inr (Or.inr (Or.inr (Or.inr (Or.inr (Or.inl h'))))))
      · exact Or.inr (Or.inr (Or.inr (Or.inr (Or.inr (Or.inr (Or.inr (Or.inl h')))))))
      · exact Or.inr (Or.inr (Or.inr (Or.inr (Or.inr (Or.inr (Or.inr (Or.inr ⟨tn, m', h'⟩)))))))
  refine ⟨?_, ?_, ?_⟩
  · intro t hpt s
    rw [resolveEndsAt_end_path env c s hend, hpt]
  · intro ps hps
    rcases add_cases env c with ⟨e, _, hA⟩ | ⟨ms, e, _, _, hA⟩ | ⟨ms, s, t, _, _, _, hA⟩ |
      ⟨ms, s, t, _, hw, _, hA⟩ <;> rw [hA] at hps
    · simp at hps
    · simp at hps
    · simp at hps
    · simp only [Option.some.injEq] at hps
      subst hps
      exact hend_ok s t (resolveWindow_ok_inv env c s t hw).2.1
  · intro d md
    refine ⟨fun hres => ?_, fun hres => ?_, fun hres => ?_⟩ <;>
      rcases hshape _ hres with ⟨s', h'⟩ | h' | h' | h' | h' | h' | h' | h' | ⟨tn, m', h'⟩ <;>
      simp at h'

/-- C6 witness: explicit end `2024-01-01T01:00:00Z` with the default duration
flags. -/
theorem explicit_end_skips_duration_witness :
    (∀ t, testEnv.parseTime endCmd.«end» = some t →
      ∀ s, resolveEndsAt testEnv endCmd s = Except.ok t) ∧
    (∀ ps, (add testEnv endCmd).request = some ps →
      testEnv.parseTime endCmd.«end» = some ps.endsAt) ∧
    (∀ d md, (add testEnv endCmd).result ≠ Except.error (AddError.durationParse d) ∧
      (add testEnv endCmd).result ≠ Except.error AddError.durationZero ∧
      (add testEnv endCmd).result ≠ Except.error (AddError.durationExceedsMax d md)) :=
  explicit_end_skips_duration testEnv endCmd (by decide)

/-- C7: with no explicit end, an unparsable duration fails with the
duration-parse error and a zero duration with the zero-duration error (the
two `InvalidDurationError` outcomes); any successful resolution yields
`endsAt = startsAt + duration`, so the built payload satisfies
`endsAt - startsAt = duration`. -/
theorem duration_path_endsAt (env : Env) (c : SilenceAddCmd) (hend : c.«end» = "") :
    (env.parseDuration c.duration = none →
      ∀ s, resolveEndsAt env c s = Except.error (AddError.durationParse c.duration)) ∧
    (env.parseDuration c.duration = some 0 →
      ∀ s, resolveEndsAt env c s = Except.error AddError.durationZero) ∧
    (∀ s t, resolveEndsAt env c s = Except.ok t →
      ∃ d, env.parseDuration c.duration = some d ∧ d ≠ 0 ∧ t = s + (d : Int)) ∧
    (∀ ps, (add env c).request = some ps →
      ∃ d, env.parseDuration c.duration = some d ∧ ps.endsAt - ps.startsAt = (d : Int)) := by
  have hok : ∀ s t, resolveEndsAt env c s = Except.ok t →
      ∃ d, env.parseDuration c.duration = some d ∧ d ≠ 0 ∧ t = s + (d : Int) := by
    intro s t hres
    rw [resolveEndsAt_duration_path env c s hend] at hres
    split at hres
    · simp at hres
    · rename_i d hd
      split at hres
      · simp at hres
      · rename_i hd0
        split at hres
        · simp at hres
        · simp only [Except.ok.injEq] at hres
          exact ⟨d, hd, hd0, hres.symm⟩
  refine ⟨?_, ?_, hok, ?_⟩
  · intro hpd s
    rw [resolveEndsAt_duration_path env c s hend, hpd]
  · intro hpd s
    rw [resolveEndsAt_duration_path env c s hend, hpd]
    dsimp only
    rw [if_pos rfl]
  · intro ps hps
    rcases add_cases env c with ⟨e, _, hA⟩ | ⟨ms, e, _, _, hA⟩ | ⟨ms, s, t, _, _, _, hA⟩ |
      ⟨ms, s, t, _, hw, _, hA⟩ <;> rw [hA] at hps
    · simp at hps
    · simp at hps
    · simp at hps
    · simp only [Option.some.injEq] at hps
      subst hps
      obtain ⟨-, he, -⟩ := resolveWindow_ok_inv env c s t hw
      obtain ⟨d, hd, -, ht⟩ := hok s t he
      exact ⟨d, hd, by dsimp only; omega⟩

/-- C7 witness: default flags (`duration = "1h"`, no end): the payload's
window length is 3600 seconds. -/
theorem duration_path_endsAt_witness :
    (testEnv.parseDuration baseCmd.duration = none →
      ∀ s, resolveEndsAt testEnv baseCmd s
        = Except.error (AddError.durationParse baseCmd.duration)) ∧
    (testEnv.parseDuration baseCmd.duration = some 0 →
      ∀ s, resolveEndsAt testEnv baseCmd s = Except.error AddError.durationZero) ∧
    (∀ s t, resolveEndsAt testEnv baseCmd s = Except.ok t →
      ∃ d, testEnv.parseDuration baseCmd.duration = some d ∧ d ≠ 0 ∧ t = s + (d : Int)) ∧
    (∀ ps, (add testEnv baseCmd).request = some ps →
      ∃ d, testEnv.parseDuration baseCmd.duration = some d ∧
        ps.endsAt - ps.startsAt = (d : Int)) :=
  duration_path_endsAt testEnv baseCmd (by decide)

/-- C8: every payload that is built (hence anything submitted) satisfies
`startsAt ≤ endsAt` and carries exactly the resolved window, never a
corrected one; submission attempts only happen once a payload exists; and a
resolved window with `startsAt` strictly after `endsAt` is rejected with the
invalid-window error, regardless of the duration input. -/
theorem window_order_invariant (env : Env) (c : SilenceAddCmd) :
    (∀ ps, (add env c).request = some ps →
      ps.startsAt ≤ ps.endsAt ∧ resolveWindow env c = Except.ok (ps.startsAt, ps.endsAt)) ∧
    ((add env c).attempts ≠ [] → ∃ ps, (add env c).request = some ps) ∧
    (∀ s t, resolveStartsAt env c = Except.ok s → resolveEndsAt env c s = Except.ok t →
      s > t → resolveWindow env c = Except.error AddError.startAfterEnd) := by
  refine ⟨?_, ?_, resolveWindow_rejects env c⟩
  · intro ps hps
    rcases add_cases env c with ⟨e, _, hA⟩ | ⟨ms, e, _, _, hA⟩ | ⟨ms, s, t, _, _, _, hA⟩ |
      ⟨ms, s, t, _, hw, _, hA⟩ <;> rw [hA] at hps
    · simp at hps
    · simp at hps
    · simp at hps
    · simp only [Option.some.injEq] at hps
      subst hps
      exact ⟨(resolveWindow_ok_inv env c s t hw).2.2, hw⟩
  · intro hne
    rcases add_cases env c with ⟨e, _, hA⟩ | ⟨ms, e, _, _, hA⟩ | ⟨ms, s, t, _, _, _, hA⟩ |
      ⟨ms, s, t, _, _, _, hA⟩ <;> rw [hA] at hne ⊢
    · simp at hne
    · simp at hne
    · simp at hne
    · exact ⟨_, rfl⟩

/-- C8 witness: the theorem applied to the concrete environment and default
flags. -/
theorem window_order_invariant_witness :
    (∀ ps, (add testEnv baseCmd).request = some ps →
      ps.startsAt ≤ ps.endsAt ∧
        resolveWindow testEnv baseCmd = Except.ok (ps.startsAt, ps.endsAt)) ∧
    ((add testEnv baseCmd).attempts ≠ [] → ∃ ps, (add testEnv baseCmd).request = some ps) ∧
    (∀ s t, resolveStartsAt testEnv baseCmd = Except.ok s →
      resolveEndsAt testEnv baseCmd s = Except.ok t → s > t →
      resolveWindow testEnv baseCmd = Except.error AddError.startAfterEnd) :=
  window_order_invariant testEnv baseCmd

/-- C9: with the tenant flag holding the empty string (the same field value
whether the flag was omitted or explicitly set to `""`) and no tenant file, a
validated invocation runs in no-tenant mode: exactly one submission, with no
tenant header attached. -/
theorem empty_tenant_no_tenant_mode (env : Env) (c : SilenceAddCmd)
    (ht : c.tenant = "") (hf : c.tenantFile = "")
    (ms : List LabelsMatcher) (hm : parseMatchers env c.matchers = Except.ok ms)
    (s t : Int) (hw : resolveWindow env c = Except.ok (s, t))
    (hc : (c.requireComment && c.comment == "") = false) :
    (add env c).attempts = [⟨none, env.post none⟩] := by
  rw [add_dispatches env c ms s t hm hw hc]
  exact dispatch_no_tenant env c ht hf

/-- C9 witness: the default flags have `tenant = ""` and `tenantFile = ""`;
the single attempt carries no tenant. -/
theorem empty_tenant_no_tenant_mode_witness :
    (add testEnv baseCmd).attempts = [⟨none, testEnv.post none⟩] :=
  empty_tenant_no_tenant_mode testEnv baseCmd (by decide) (by decide)
    [⟨MatchType.matchEqual, "alertname", "foo"⟩] (by decide)
    1704067200 1704070800 (by decide) (by decide)

/-- C10: with both tenant configurations supplied, matcher parsing, window
resolution and the comment check still run first: any of their failures is
the reported error, never the configuration conflict, and the conflict error
is reported exactly when all three succeed. -/
theorem conflict_check_after_validation (env : Env) (c : SilenceAddCmd)
    (ht : c.tenant ≠ "") (hf : c.tenantFile ≠ "") :
    (∀ e, parseMatchers env c.matchers = Except.error e →
      (add env c).result = Except.error e ∧ e ≠ AddError.conflictingTenant) ∧
    (∀ ms e, parseMatchers env c.matchers = Except.ok ms →
      resolveWindow env c = Except.error e →
      (add env c).result = Except.error e ∧ e ≠ AddError.conflictingTenant) ∧
    (∀ ms s t, parseMatchers env c.matchers = Except.ok ms →
      resolveWindow env c = Except.ok (s, t) →
      (c.requireComment && c.comment == "") = true →
      (add env c).result = Except.error AddError.commentRequired) ∧
    ((add env c).result = Except.error AddError.conflictingTenant →
      (∃ ms, parseMatchers env c.matchers = Except.ok ms) ∧
      (∃ w, resolveWindow env c = Except.ok w) ∧
      (c.requireComment && c.comment == "") = false) := by
  refine ⟨?_, ?_, ?_, ?_⟩
  · intro e hpm
    refine ⟨by rw [add_matchers_error env c e hpm], ?_⟩
    rcases parseMatchers_error_shape env c.matchers e hpm with ⟨s', h'⟩ | h' <;>
      subst h' <;> simp
  · intro ms e hm hw
    refine ⟨by rw [add_window_error env c ms e hm hw], ?_⟩
    rcases resolveWindow_error_shape env c e hw with h' | h' | h' | h' | h' | h' <;>
      subst h' <;> simp
  · intro ms s t hm hw hc
    rw [add_comment_required env c ms s t hm hw hc]
  · intro hres
    rcases add_cases env c with ⟨e, hpm, hA⟩ | ⟨ms, e, hm, hw, hA⟩ |
      ⟨ms, s, t, hm, hw, hc, hA⟩ | ⟨ms, s, t, hm, hw, hc, hA⟩
    · rw [hA] at hres
      simp only [Except.error.injEq] at hres
      subst hres
      rcases parseMatchers_error_shape env c.matchers _ hpm with ⟨s', h'⟩ | h' <;> simp at h'
    · rw [hA] at hres
      simp only [Except.error.injEq] at hres
      subst hres
      rcases resolveWindow_error_shape env c _ hw with h' | h' | h' | h' | h' | h' <;>
        simp at h'
    · rw [hA] at hres
      simp at hres
    · exact ⟨⟨ms, hm⟩, ⟨(s, t), hw⟩, hc⟩

/-- C10 witness: the theorem applied to the conflicting-tenant command, whose
validations all pass. -/
theorem conflict_check_after_validation_witness :
    (∀ e, parseMatchers testEnv conflictCmd.matchers = Except.error e →
      (add testEnv conflictCmd).result = Except.error e ∧
        e ≠ AddError.conflictingTenant) ∧
    (∀ ms e, parseMatchers testEnv conflictCmd.matchers = Except.ok ms →
      resolveWindow testEnv conflictCmd = Except.error e →
      (add testEnv conflictCmd).result = Except.error e ∧
        e ≠ AddError.conflictingTenant) ∧
    (∀ ms s t, parseMatchers testEnv conflictCmd.matchers = Except.ok ms →
      resolveWindow testEnv conflictCmd = Except.ok (s, t) →
      (conflictCmd.requireComment && conflictCmd.comment == "") = true →
      (add testEnv conflictCmd).result = Except.error AddError.commentRequired) ∧
    ((add testEnv conflictCmd).result = Except.error AddError.conflictingTenant →
      (∃ ms, parseMatchers testEnv conflictCmd.matchers = Except.ok ms) ∧
      (∃ w, resolveWindow testEnv conflictCmd = Except.ok w) ∧
      (conflictCmd.requireComment && conflictCmd.comment == "") = false) :=
  conflict_check_after_validation testEnv conflictCmd (by decide) (by decide)

end Atm
